import Mathlib

/-!
Shallow embedding of the `ebs-autoscale-rust` capacity-management engine
(`src/lib.rs`), together with the collaborator contracts declared in
`src/aws.rs`, `src/disk.rs` and `src/fs.rs`.

The collaborator traits (`DiskMgr`, `AWS`, `FS`) are modelled as records of
pure functions (every mock implementation in the repository is pure within a
call).  The two entry points `need_more_space` and `add_more_space` are
instrumented to return, next to their `Result`, the list of collaborator
calls they performed, so that "no provider call is made" style properties
can be stated.  Machine integers (`u32`, `u64`) only ever flow through
comparisons in the embedded code, so they are modelled as `Nat`.
-/

namespace EbsAutoscaleRust

/-- Rust's `Result<T, E>`. -/
inductive Result (T E : Type) where
  | ok (value : T)
  | err (error : E)
  deriving DecidableEq, Repr

/-- `Limits` from `src/lib.rs`. -/
structure Limits where
  initial_utilization_threshold : Nat
  min_ebs_volume_size : Nat
  max_ebs_volume_size : Nat
  max_logical_volume_size : Nat
  max_ebs_volume_count : Nat
  deriving DecidableEq, Repr

/-- `Config` from `src/lib.rs`. -/
structure Config where
  ensure_ebs_deleted_on_term : Bool
  detection_interval : Nat
  mountpoint : String
  limits : Limits
  fs_type : String
  deriving DecidableEq, Repr

/-- `impl Default for Config` from `src/lib.rs`. -/
def Config.default : Config :=
  { ensure_ebs_deleted_on_term := true
    detection_interval := 2
    mountpoint := "/dev/xvdba"
    limits :=
      { initial_utilization_threshold := 80
        min_ebs_volume_size := 10
        max_ebs_volume_size := 1000
        max_logical_volume_size := 1000
        max_ebs_volume_count := 100 }
    fs_type := "btrfs" }

/-- `MountPointNotFoundError` from `src/lib.rs` (unit struct). -/
inductive MountPointNotFoundError where
  | mk
  deriving DecidableEq, Repr

/-- `MaxEBSCountExceededError` from `src/lib.rs` (unit struct). -/
inductive MaxEBSCountExceededError where
  | mk
  deriving DecidableEq, Repr

/-- `MaxLogicalVolumeSizeExceededError` from `src/lib.rs` (unit struct). -/
inductive MaxLogicalVolumeSizeExceededError where
  | mk
  deriving DecidableEq, Repr

/-- `GenericAWSError` from `src/lib.rs` (unit struct). -/
inductive GenericAWSError where
  | mk
  deriving DecidableEq, Repr

/-- `GenericFSError` from `src/lib.rs` (unit struct). -/
inductive GenericFSError where
  | mk
  deriving DecidableEq, Repr

/-- `NoMoreDeviceNamesAvailableError` from `src/disk.rs` (unit struct). -/
inductive NoMoreDeviceNamesAvailableError where
  | mk
  deriving DecidableEq, Repr

/-- The dynamic error type `Box<dyn Error>` returned by the two entry points,
restricted to the error structs the repository defines. -/
inductive DynError where
  | mountPointNotFound (e : MountPointNotFoundError)
  | maxEBSCountExceeded (e : MaxEBSCountExceededError)
  | maxLogicalVolumeSizeExceeded (e : MaxLogicalVolumeSizeExceededError)
  | genericAWS (e : GenericAWSError)
  | genericFS (e : GenericFSError)
  | noMoreDeviceNamesAvailable (e : NoMoreDeviceNamesAvailableError)
  deriving DecidableEq, Repr

/-- One collaborator call performed by the engine.  The constructors cover the
operations of the collaborator contracts (`DiskMgr`, `AWS`, `FS`), including
the `tag_as_delete_on_term` operation of `src/aws.rs` and the
`get_next_logical_device` operation of `src/disk.rs`. -/
inductive CallEvent where
  | diskUsagePercent (mountpoint : String)
  | diskSize (mountpoint : String)
  | requestEbsVolume (size : Nat)
  | attachEbsVolume (device : String)
  | expandVolume (device : String)
  | tagAsDeleteOnTerm (device : String)
  | getNextLogicalDevice
  deriving DecidableEq, Repr

/-- Is the event a `tag_as_delete_on_term` call? -/
def CallEvent.isTagCall : CallEvent → Bool
  | .tagAsDeleteOnTerm _ => true
  | _ => false

/-- Is the event a `get_next_logical_device` call? -/
def CallEvent.isGetNextDeviceCall : CallEvent → Bool
  | .getNextLogicalDevice => true
  | _ => false

/-- The `DiskMgr` trait of `src/lib.rs`, as used by `EBSManager`: an arbitrary
implementation is a pair of functions from a mountpoint to a `Result`. -/
structure DiskMgr where
  disk_usage_percent : String → Result Nat MountPointNotFoundError
  disk_size : String → Result Nat MountPointNotFoundError

/-- The `AWS` trait of `src/lib.rs`, as used by `EBSManager`. -/
structure AWS where
  request_ebs_volume : Nat → Result String GenericAWSError
  attach_ebs_volume : String → Result String GenericAWSError

/-- The `FS` trait of `src/lib.rs`. -/
structure FS where
  expand_volume : String → Result Bool GenericFSError

/-- `EBSManager` from `src/lib.rs`: configuration plus one instance of each
collaborator. -/
structure EBSManager where
  config : Config
  diskmgr : DiskMgr
  aws : AWS
  fs : FS

/-- `EBSManager::count_mounted_ebs_devices` from `src/lib.rs`: `Some(10)`. -/
def EBSManager.count_mounted_ebs_devices (_m : EBSManager) : Option Nat :=
  some 10

/-- `EBSManager::calc_threshold` from `src/lib.rs`: the sequence of early
returns is translated as nested conditionals in source order. -/
def EBSManager.calc_threshold (m : EBSManager) (dev_count : Nat) : Option Nat :=
  if dev_count ≥ 4 ∧ dev_count ≤ 6 then
    some 80
  else if dev_count > 6 ∧ dev_count ≤ 10 then
    some 90
  else if dev_count > 10 then
    some 90
  else
    some m.config.limits.initial_utilization_threshold

/-- `EBSManager::calc_new_size` from `src/lib.rs`: `Some(10)`. -/
def EBSManager.calc_new_size (_m : EBSManager) (_dev_count : Nat) : Option Nat :=
  some 10

/-- `EBSManager::get_next_logical_device` from `src/lib.rs`: a stub that is
never called by the pipeline. -/
def EBSManager.get_next_logical_device (_m : EBSManager) : Option String :=
  some "/dev/xvdb"

/-- `EBSManager::need_more_space` from `src/lib.rs`, instrumented with the
list of collaborator calls it performs.  The device count and the threshold
are computed (and unwrapped) before the Disk Inspector is queried. -/
def EBSManager.need_more_space (m : EBSManager) :
    Result Bool DynError × List CallEvent :=
  let dev_count := m.count_mounted_ebs_devices
  let threshold := (m.calc_threshold dev_count.get!).get!
  match m.diskmgr.disk_usage_percent m.config.mountpoint with
  | .err e =>
      (.err (.mountPointNotFound e), [.diskUsagePercent m.config.mountpoint])
  | .ok disk_utilization =>
      if disk_utilization ≥ threshold then
        (.ok true, [.diskUsagePercent m.config.mountpoint])
      else
        (.ok false, [.diskUsagePercent m.config.mountpoint])

/-- `EBSManager::add_more_space` from `src/lib.rs`, instrumented with the list
of collaborator calls it performs.  Note the `map_err(|_e| Box::new(GenericAWSError))`
of the source: a filesystem-expand failure is replaced by a fresh
`GenericAWSError`. -/
def EBSManager.add_more_space (m : EBSManager) (dev_count : Nat) :
    Result Bool DynError × List CallEvent :=
  if dev_count ≥ m.config.limits.max_ebs_volume_count then
    (.err (.maxEBSCountExceeded .mk), [])
  else
    match m.diskmgr.disk_size m.config.mountpoint with
    | .err e =>
        (.err (.mountPointNotFound e), [.diskSize m.config.mountpoint])
    | .ok cur_size =>
      if cur_size ≥ m.config.limits.max_logical_volume_size then
        (.err (.maxLogicalVolumeSizeExceeded .mk), [.diskSize m.config.mountpoint])
      else
        let new_size := (m.calc_new_size dev_count).get!
        match m.aws.request_ebs_volume new_size with
        | .err e =>
            (.err (.genericAWS e),
             [.diskSize m.config.mountpoint, .requestEbsVolume new_size])
        | .ok dev =>
          match m.aws.attach_ebs_volume dev with
          | .err e =>
              (.err (.genericAWS e),
               [.diskSize m.config.mountpoint, .requestEbsVolume new_size,
                .attachEbsVolume dev])
          | .ok dev2 =>
            match m.fs.expand_volume dev2 with
            | .err _e =>
                (.err (.genericAWS GenericAWSError.mk),
                 [.diskSize m.config.mountpoint, .requestEbsVolume new_size,
                  .attachEbsVolume dev, .expandVolume dev2])
            | .ok b =>
                (.ok b,
                 [.diskSize m.config.mountpoint, .requestEbsVolume new_size,
                  .attachEbsVolume dev, .expandVolume dev2])

/-- `MockDiskMgr` from the repository's test doubles: reports the given
utilization percentage and total disk size for every mountpoint. -/
def MockDiskMgr (utilization_percentage : Nat) (total_disk_size : Nat) : DiskMgr :=
  { disk_usage_percent := fun _ => .ok utilization_percentage
    disk_size := fun _ => .ok total_disk_size }

/-- `MockAWS` from the repository's test doubles. -/
def MockAWS (simulate_aws_err : Bool) : AWS :=
  { request_ebs_volume := fun _ =>
      if simulate_aws_err then .err GenericAWSError.mk else .ok "/dev/test"
    attach_ebs_volume := fun _ =>
      if simulate_aws_err then .err GenericAWSError.mk else .ok "/dev/test" }

/-- `MockFS` from the repository's test doubles. -/
def MockFS (simulate_fs_err : Bool) : FS :=
  { expand_volume := fun _ =>
      if simulate_fs_err then .err GenericFSError.mk else .ok true }

/-- A Disk Inspector that cannot resolve any mount point. -/
def failingDiskMgr : DiskMgr :=
  { disk_usage_percent := fun _ => .err MountPointNotFoundError.mk
    disk_size := fun _ => .err MountPointNotFoundError.mk }

/-- The manager built by the repository's test `setup` with all defaults. -/
def mgrDefault : EBSManager :=
  { config := Config.default
    diskmgr := MockDiskMgr 10 100
    aws := MockAWS false
    fs := MockFS false }

/-- Manager whose mock disk reports 95% utilization (`test_need_more_space_true`). -/
def mgrHighUtil : EBSManager :=
  { config := Config.default
    diskmgr := MockDiskMgr 95 100
    aws := MockAWS false
    fs := MockFS false }

/-- Manager whose mock disk reports total size 1000 (`test_add_more_space_max_logical_size`). -/
def mgrBigDisk : EBSManager :=
  { config := Config.default
    diskmgr := MockDiskMgr 10 1000
    aws := MockAWS false
    fs := MockFS false }

/-- Manager whose AWS mock simulates failures (`test_add_more_space_aws_err`). -/
def mgrAwsErr : EBSManager :=
  { config := Config.default
    diskmgr := MockDiskMgr 10 100
    aws := MockAWS true
    fs := MockFS false }

/-- Manager whose FS mock simulates failures (`test_add_more_space_logical_volume_err`). -/
def mgrFsErr : EBSManager :=
  { config := Config.default
    diskmgr := MockDiskMgr 10 100
    aws := MockAWS false
    fs := MockFS true }

/-- Manager whose Disk Inspector cannot resolve the mount point. -/
def mgrDiskErr : EBSManager :=
  { config := Config.default
    diskmgr := failingDiskMgr
    aws := MockAWS false
    fs := MockFS false }

/-- A configuration whose minimum volume size exceeds the constant 10 that
`calc_new_size` returns. -/
def cfgMin20 : Config :=
  { Config.default with
    limits :=
      { initial_utilization_threshold := 80
        min_ebs_volume_size := 20
        max_ebs_volume_size := 1000
        max_logical_volume_size := 1000
        max_ebs_volume_count := 100 } }

/-- Manager over `cfgMin20`. -/
def mgrMin20 : EBSManager :=
  { config := cfgMin20
    diskmgr := MockDiskMgr 10 100
    aws := MockAWS false
    fs := MockFS false }

/-- A configuration whose initial utilization threshold (95) exceeds the 80
used by the middle step of `calc_threshold`. -/
def cfgInit95 : Config :=
  { Config.default with
    limits :=
      { initial_utilization_threshold := 95
        min_ebs_volume_size := 10
        max_ebs_volume_size := 1000
        max_logical_volume_size := 1000
        max_ebs_volume_count := 100 } }

/-- Manager over `cfgInit95`. -/
def mgrInit95 : EBSManager :=
  { config := cfgInit95
    diskmgr := MockDiskMgr 10 100
    aws := MockAWS false
    fs := MockFS false }

/-- Closed form of `calc_threshold`: the two 90-branches of the source merge
into a single interval condition. -/
theorem calc_threshold_eq (m : EBSManager) (n : Nat) :
    m.calc_threshold n =
      some (if 4 ≤ n ∧ n ≤ 6 then 80
            else if 6 < n then 90
            else m.config.limits.initial_utilization_threshold) := by
  unfold EBSManager.calc_threshold
  split_ifs <;> first | rfl | omega

/-- Claim C2: `calc_threshold` is the exact step function: the configured
initial utilization threshold below device count 4, then 80 on `[4,6]`, then
90 above 6. -/
theorem calc_threshold_step (m : EBSManager) (n : Nat) :
    (n < 4 → m.calc_threshold n = some m.config.limits.initial_utilization_threshold) ∧
    (4 ≤ n → n ≤ 6 → m.calc_threshold n = some 80) ∧
    (6 < n → m.calc_threshold n = some 90) := by
  refine ⟨fun h => ?_, fun h1 h2 => ?_, fun h => ?_⟩ <;>
    rw [calc_threshold_eq] <;> split_ifs <;> first | rfl | omega

/-- Witness for `calc_threshold_step` at the default configuration. -/
theorem calc_threshold_step_witness :
    mgrDefault.calc_threshold 2 = some 80 ∧
    mgrDefault.calc_threshold 5 = some 80 ∧
    mgrDefault.calc_threshold 7 = some 90 :=
  ⟨(calc_threshold_step mgrDefault 2).1 (by decide),
   (calc_threshold_step mgrDefault 5).2.1 (by decide) (by decide),
   (calc_threshold_step mgrDefault 7).2.2 (by decide)⟩

/-- Counterexample to claim C10 as stated: with an initial utilization
threshold of 95, `calc_threshold` is not monotone (95 at count 1, 80 at
count 5). -/
theorem calc_threshold_nonmonotone :
    mgrInit95.calc_threshold 1 = some 95 ∧
    mgrInit95.calc_threshold 5 = some 80 ∧
    (1 : Nat) ≤ 5 ∧ ¬ ((95 : Nat) ≤ 80) := by decide

/-- Claim C10 (amended): `calc_threshold` always returns `some` value, and it
is monotone for every configuration whose initial utilization threshold is at
most 80 (the step the function moves to at device count 4); in particular for
the default configuration. -/
theorem calc_threshold_total_monotone (m : EBSManager) :
    (∀ n, (m.calc_threshold n).isSome = true) ∧
    (m.config.limits.initial_utilization_threshold ≤ 80 →
      ∀ n1 n2 t1 t2, n1 ≤ n2 →
        m.calc_threshold n1 = some t1 → m.calc_threshold n2 = some t2 →
        t1 ≤ t2) := by
  constructor
  · intro n
    rw [calc_threshold_eq]
    rfl
  · intro hinit n1 n2 t1 t2 h12 h1 h2
    rw [calc_threshold_eq] at h1 h2
    have e1 := Option.some.inj h1
    have e2 := Option.some.inj h2
    split_ifs at e1 e2 <;> omega

/-- Witness for `calc_threshold_total_monotone` at the default configuration. -/
theorem calc_threshold_total_monotone_witness :
    (mgrDefault.calc_threshold 3).isSome = true ∧ (80 : Nat) ≤ 90 :=
  ⟨(calc_threshold_total_monotone mgrDefault).1 3,
   (calc_threshold_total_monotone mgrDefault).2 (by decide) 5 7 80 90
     (by decide) (by decide) (by decide)⟩

/-- Counterexample to claim C9 as stated: with a configured minimum volume
size of 20, `calc_new_size` still returns 10, which is below the minimum. -/
theorem calc_new_size_below_min :
    mgrMin20.calc_new_size 1 = some 10 ∧
    ¬ (mgrMin20.config.limits.min_ebs_volume_size ≤ 10) := by decide

/-- Claim C9 (amended): for every configuration whose limits satisfy
`min_ebs_volume_size ≤ 10 ≤ max_ebs_volume_size` (in particular the default
configuration), the size returned by `calc_new_size` lies within
`[min_ebs_volume_size, max_ebs_volume_size]`. -/
theorem calc_new_size_bounds (m : EBSManager) (n s : Nat)
    (hmin : m.config.limits.min_ebs_volume_size ≤ 10)
    (hmax : 10 ≤ m.config.limits.max_ebs_volume_size)
    (hs : m.calc_new_size n = some s) :
    m.config.limits.min_ebs_volume_size ≤ s ∧
    s ≤ m.config.limits.max_ebs_volume_size := by
  simp only [EBSManager.calc_new_size, Option.some.injEq] at hs
  omega

/-- Witness for `calc_new_size_bounds` at the default configuration. -/
theorem calc_new_size_bounds_witness :
    mgrDefault.config.limits.min_ebs_volume_size ≤ 10 ∧
    10 ≤ mgrDefault.config.limits.max_ebs_volume_size :=
  calc_new_size_bounds mgrDefault 4 10 (by decide) (by decide) rfl

/-- Claim C3: whenever the device count reaches the configured maximum volume
count, `add_more_space` fails with the max-count error and performs no
collaborator call at all (the trace is empty). -/
theorem add_more_space_count_limit (m : EBSManager) (n : Nat)
    (h : n ≥ m.config.limits.max_ebs_volume_count) :
    m.add_more_space n = (.err (.maxEBSCountExceeded .mk), []) := by
  unfold EBSManager.add_more_space
  rw [if_pos h]

/-- Witness for `add_more_space_count_limit`: count 101 against the default
limit 100. -/
theorem add_more_space_count_limit_witness :
    mgrDefault.add_more_space 101 = (.err (.maxEBSCountExceeded .mk), []) :=
  add_more_space_count_limit mgrDefault 101 (by decide)

/-- Claim C4: below the count limit, if the Disk Inspector reports a logical
volume size at or above the configured maximum, `add_more_space` fails with
the max-logical-size error after a single Disk Inspector call: no Volume
Provider or Filesystem Expander call appears in the trace. -/
theorem add_more_space_size_limit (m : EBSManager) (n sz : Nat)
    (hn : n < m.config.limits.max_ebs_volume_count)
    (hs : m.diskmgr.disk_size m.config.mountpoint = .ok sz)
    (hsz : sz ≥ m.config.limits.max_logical_volume_size) :
    m.add_more_space n =
      (.err (.maxLogicalVolumeSizeExceeded .mk), [.diskSize m.config.mountpoint]) := by
  simp only [EBSManager.add_more_space, hs]
  rw [if_neg (by omega), if_pos hsz]

/-- Witness for `add_more_space_size_limit`: reported size 1000 against the
default limit 1000 at device count 10. -/
theorem add_more_space_size_limit_witness :
    mgrBigDisk.add_more_space 10 =
      (.err (.maxLogicalVolumeSizeExceeded .mk), [.diskSize "/dev/xvdba"]) :=
  add_more_space_size_limit mgrBigDisk 10 1000 (by decide) rfl (by decide)

/-- Claim C5: when both limit checks pass and the Volume Provider's
request-volume operation fails, `add_more_space` returns that provider error
and the trace ends at the request call: the Filesystem Expander is never
invoked. -/
theorem add_more_space_provider_error (m : EBSManager) (n sz : Nat)
    (e : GenericAWSError)
    (hn : n < m.config.limits.max_ebs_volume_count)
    (hs : m.diskmgr.disk_size m.config.mountpoint = .ok sz)
    (hsz : sz < m.config.limits.max_logical_volume_size)
    (hr : m.aws.request_ebs_volume ((m.calc_new_size n).get!) = .err e) :
    m.add_more_space n =
      (.err (.genericAWS e),
       [.diskSize m.config.mountpoint,
        .requestEbsVolume ((m.calc_new_size n).get!)]) := by
  simp only [EBSManager.add_more_space, hs, hr]
  rw [if_neg (by omega), if_neg (by omega)]

/-- Witness for `add_more_space_provider_error`: AWS mock simulating failure
at device count 1. -/
theorem add_more_space_provider_error_witness :
    mgrAwsErr.add_more_space 1 =
      (.err (.genericAWS .mk), [.diskSize "/dev/xvdba", .requestEbsVolume 10]) :=
  add_more_space_provider_error mgrAwsErr 1 100 GenericAWSError.mk
    (by decide) rfl (by decide) rfl

/-- Counterexample to claim C6 as stated: when the Filesystem Expander fails,
`add_more_space` does not surface a filesystem error; it returns a freshly
constructed `GenericAWSError` instead. -/
theorem fs_error_reclassified :
    mgrFsErr.fs.expand_volume "/dev/test" = .err GenericFSError.mk ∧
    (mgrFsErr.add_more_space 1).1 = .err (.genericAWS GenericAWSError.mk) ∧
    (mgrFsErr.add_more_space 1).1 ≠ .err (.genericFS GenericFSError.mk) := by
  refine ⟨rfl, rfl, ?_⟩
  decide

/-- Claim C6 (amended): a `MountPointNotFound` error from the Disk Inspector
is propagated unchanged through both `need_more_space` and `add_more_space`,
without retry or suppression; a filesystem error from the Filesystem Expander,
however, is reclassified by `add_more_space` as a provider (`GenericAWS`)
error. -/
theorem error_propagation_policy (m : EBSManager) (n : Nat) :
    (∀ e, m.diskmgr.disk_usage_percent m.config.mountpoint = .err e →
        (m.need_more_space).1 = .err (.mountPointNotFound e)) ∧
    (n < m.config.limits.max_ebs_volume_count →
      ∀ e, m.diskmgr.disk_size m.config.mountpoint = .err e →
        (m.add_more_space n).1 = .err (.mountPointNotFound e)) ∧
    (n < m.config.limits.max_ebs_volume_count →
      ∀ sz dev dev2 e, m.diskmgr.disk_size m.config.mountpoint = .ok sz →
        sz < m.config.limits.max_logical_volume_size →
        m.aws.request_ebs_volume ((m.calc_new_size n).get!) = .ok dev →
        m.aws.attach_ebs_volume dev = .ok dev2 →
        m.fs.expand_volume dev2 = .err e →
        (m.add_more_space n).1 = .err (.genericAWS GenericAWSError.mk)) := by
  refine ⟨?_, ?_, ?_⟩
  · intro e he
    simp only [EBSManager.need_more_space, he]
  · intro hn e he
    simp only [EBSManager.add_more_space, he]
    rw [if_neg (by omega)]
  · intro hn sz dev dev2 e hs hsz hr ha hf
    simp only [EBSManager.add_more_space, hs, hr, ha, hf]
    rw [if_neg (by omega), if_neg (by omega)]

/-- Witness for `error_propagation_policy`: a failing Disk Inspector for the
first two parts, a failing Filesystem Expander for the third. -/
theorem error_propagation_policy_witness :
    (mgrDiskErr.need_more_space).1 = .err (.mountPointNotFound .mk) ∧
    (mgrDiskErr.add_more_space 1).1 = .err (.mountPointNotFound .mk) ∧
    (mgrFsErr.add_more_space 2).1 = .err (.genericAWS .mk) :=
  ⟨(error_propagation_policy mgrDiskErr 1).1 .mk rfl,
   (error_propagation_policy mgrDiskErr 1).2.1 (by decide) .mk rfl,
   (error_propagation_policy mgrFsErr 2).2.2 (by decide) 100 "/dev/test"
     "/dev/test" .mk rfl (by decide) rfl rfl rfl⟩

/-- Counterexample to claim C7 as stated: with `ensure_ebs_deleted_on_term`
set (the default) and a successful attach, the full call trace of a
successful `add_more_space` run contains no tag-as-delete-on-terminate call;
the filesystem expand follows the attach directly. -/
theorem tag_not_invoked_run :
    mgrDefault.config.ensure_ebs_deleted_on_term = true ∧
    mgrDefault.aws.attach_ebs_volume "/dev/test" = .ok "/dev/test" ∧
    mgrDefault.add_more_space 1 =
      (.ok true,
       [.diskSize "/dev/xvdba", .requestEbsVolume 10,
        .attachEbsVolume "/dev/test", .expandVolume "/dev/test"]) :=
  ⟨rfl, rfl, rfl⟩

/-- Claim C7 (amended): `add_more_space` never invokes the Volume Provider's
tag-as-delete-on-terminate operation, for any configuration (including those
with `ensure_ebs_deleted_on_term` set) and any collaborator state. -/
theorem add_more_space_never_tags (m : EBSManager) (n : Nat) :
    ((m.add_more_space n).2.filter CallEvent.isTagCall) = [] := by
  unfold EBSManager.add_more_space
  dsimp only
  repeat' split
  all_goals rfl

/-- Counterexample to claim C8 as stated: after provisioning succeeds (the
request returns the handle `/dev/test`), the trace of `add_more_space` shows
the attach was called on that handle directly; no next-device-name query to
the Disk Inspector appears. -/
theorem device_name_not_queried_run :
    mgrDefault.aws.request_ebs_volume 10 = .ok "/dev/test" ∧
    mgrDefault.add_more_space 2 =
      (.ok true,
       [.diskSize "/dev/xvdba", .requestEbsVolume 10,
        .attachEbsVolume "/dev/test", .expandVolume "/dev/test"]) :=
  ⟨rfl, rfl⟩

/-- Claim C8 (amended): after provisioning succeeds, `add_more_space` attaches
the volume to the device handle returned by the provisioning call itself; it
never queries the Disk Inspector for a next free device name and never fails
with the no-device-names-available error. -/
theorem add_more_space_attaches_provisioned_handle (m : EBSManager)
    (n sz : Nat) (dev : String)
    (hn : n < m.config.limits.max_ebs_volume_count)
    (hs : m.diskmgr.disk_size m.config.mountpoint = .ok sz)
    (hsz : sz < m.config.limits.max_logical_volume_size)
    (hr : m.aws.request_ebs_volume ((m.calc_new_size n).get!) = .ok dev) :
    CallEvent.attachEbsVolume dev ∈ (m.add_more_space n).2 ∧
    ((m.add_more_space n).2.filter CallEvent.isGetNextDeviceCall) = [] ∧
    (m.add_more_space n).1 ≠ .err (.noMoreDeviceNamesAvailable .mk) := by
  simp only [EBSManager.add_more_space, hs, hr]
  rw [if_neg (by omega), if_neg (by omega)]
  cases ha : m.aws.attach_ebs_volume dev with
  | err e => simp [ha, List.filter, CallEvent.isGetNextDeviceCall]
  | ok dev2 =>
    cases hf : m.fs.expand_volume dev2 with
    | err e => simp [hf, List.filter, CallEvent.isGetNextDeviceCall]
    | ok b => simp [hf, List.filter, CallEvent.isGetNextDeviceCall]

/-- Witness for `add_more_space_attaches_provisioned_handle` at the default
manager and device count 3. -/
theorem add_more_space_attaches_provisioned_handle_witness :
    CallEvent.attachEbsVolume "/dev/test" ∈ (mgrDefault.add_more_space 3).2 ∧
    ((mgrDefault.add_more_space 3).2.filter CallEvent.isGetNextDeviceCall) = [] ∧
    (mgrDefault.add_more_space 3).1 ≠ .err (.noMoreDeviceNamesAvailable .mk) :=
  add_more_space_attaches_provisioned_handle mgrDefault 3 100 "/dev/test"
    (by decide) rfl (by decide) rfl

/-- Claim C1: whenever the Disk Inspector resolves the configured mount point,
`need_more_space` returns ok-true exactly when the reported utilization is at
least the threshold `calc_threshold` computes from the reported attached
device count, and ok-false otherwise. -/
theorem need_more_space_iff (m : EBSManager) (u count t : Nat)
    (hu : m.diskmgr.disk_usage_percent m.config.mountpoint = .ok u)
    (hc : m.count_mounted_ebs_devices = some count)
    (ht : m.calc_threshold count = some t) :
    ((m.need_more_space).1 = .ok true ↔ t ≤ u) ∧
    ((m.need_more_space).1 = .ok false ↔ u < t) := by
  have hcount : count = 10 := (Option.some.inj hc).symm
  subst hcount
  have ht90 : t = 90 := by
    rw [calc_threshold_eq] at ht
    simpa using ht.symm
  subst ht90
  have key : (m.need_more_space).1 = if u ≥ (90 : Nat) then .ok true else .ok false := by
    unfold EBSManager.need_more_space
    rw [hu]
    show (if u ≥ (90 : Nat) then
            ((Result.ok true : Result Bool DynError),
             [CallEvent.diskUsagePercent m.config.mountpoint])
          else
            (Result.ok false,
             [CallEvent.diskUsagePercent m.config.mountpoint])).1 =
        if u ≥ (90 : Nat) then Result.ok true else Result.ok false
    split_ifs <;> rfl
  rw [key]
  split_ifs with h
  · refine ⟨⟨fun _ => h, fun _ => rfl⟩, ?_, ?_⟩
    · intro hh
      exact absurd (Result.ok.inj hh) (by simp)
    · intro hh
      omega
  · refine ⟨⟨?_, fun hh => absurd hh h⟩, ⟨fun _ => by omega, fun _ => rfl⟩⟩
    intro hh
    exact absurd (Result.ok.inj hh) (by simp)

/-- Witness for `need_more_space_iff`: utilization 95 against threshold 90. -/
theorem need_more_space_iff_witness :
    ((mgrHighUtil.need_more_space).1 = .ok true ↔ (90 : Nat) ≤ 95) ∧
    ((mgrHighUtil.need_more_space).1 = .ok false ↔ (95 : Nat) < 90) :=
  need_more_space_iff mgrHighUtil 95 10 90 rfl rfl (by decide)

end EbsAutoscaleRust
